import Mathlib

/-!
# Verification of the AIWA underwriting core (`underwrite.py`)

Shallow embedding of the control-and-validation core of the repository:
the node router (`NodeRouter.determine_node`), the offer calculator
(`calculate_offer`), the MCA/CIN keyword logic of `build_system_prompt`,
and the snapshot merge-and-validate block of the `/api/chat` handler.

Modelling conventions:
* A Python dict (the "application snapshot" / `user_data`) is an
  association list `List (String × Value)`; `get` returns the first
  binding, `set` replaces all bindings of the key.
* Python floats are modelled as exact rationals `ℚ`; `round(x, 2)` and
  `round(x)` are modelled as exact round-half-to-even on `ℚ` (binary
  representation error of CPython floats is abstracted away).
* Python truthiness: missing key, `None`, `False`, `0` and `""` are
  falsy, everything else truthy.
-/

namespace Underwrite

/-- A primitive JSON/Python value stored in the application snapshot:
a string, a boolean, a number (modelled as an exact rational), or `None`.
(The snapshot fields read by the embedded core are all primitives;
lists such as `gstnList` are never read by the embedded functions.) -/
inductive Value where
  | vStr (s : String)
  | vBool (b : Bool)
  | vNum (q : ℚ)
  | vNone
  deriving DecidableEq, Repr

/-- Python truthiness of a stored value. -/
def Value.truthy : Value → Bool
  | .vStr s => s ≠ ""
  | .vBool b => b
  | .vNum q => q ≠ 0
  | .vNone => false

/-- The application snapshot (`user_data`): a flat string-keyed mapping,
modelled as an association list where `get` returns the first binding. -/
abbrev Snapshot := List (String × Value)

/-- `d.get(k)` — `none` when the key is absent. -/
def Snapshot.get (m : Snapshot) (k : String) : Option Value :=
  match m with
  | [] => none
  | p :: t => if p.1 = k then some p.2 else Snapshot.get t k

/-- `d[k] = v` — replace every binding of `k` (the assoc-list rendering of
a Python dict store; `get` agrees with dict semantics). -/
def Snapshot.set (m : Snapshot) (k : String) (v : Value) : Snapshot :=
  (k, v) :: m.filter (fun p => !(p.1 = k : Bool))

/-- `d.pop(k, None)` — remove every binding of `k`. -/
def Snapshot.remove (m : Snapshot) (k : String) : Snapshot :=
  m.filter (fun p => !(p.1 = k : Bool))

/-- `d.update(e)` — store every binding of `e` in order. -/
def Snapshot.update (m e : Snapshot) : Snapshot :=
  e.foldl (fun acc p => acc.set p.1 p.2) m

/-- `k in e.keys()`. -/
def Snapshot.hasKey (e : Snapshot) (k : String) : Bool :=
  e.any (fun p => p.1 = k)

/-- Truthiness of `d.get(k)`: a missing key is falsy. -/
def truthyO : Option Value → Bool
  | none => false
  | some v => v.truthy

/-- `d.get(k) is None`: key absent, or stored value is `None`. -/
def isNoneO : Option Value → Bool
  | none => true
  | some .vNone => true
  | some _ => false

/-- Value of `d.get(k, dflt)` read directly as a number, as the source does
for `bureauScore` and `originalTenureMonths`.  Python booleans are the
integers `0`/`1`.  (A string here would raise a `TypeError` in the source
before any result is produced; strings are outside the numeric model and
mapped to the default.) -/
def numOfD : Option Value → ℚ → ℚ
  | some (.vNum q), _ => q
  | some (.vBool b), _ => if b then 1 else 0
  | some (.vStr _), d => d
  | some .vNone, d => d
  | none, d => d

/-- Value of `d.get(k, "")` read as a string (for `.lower()` calls); a
non-string value would raise `AttributeError` in the source and is mapped
to the default. -/
def strOfD : Option Value → String → String
  | some (.vStr s), _ => s
  | _, d => d

-- ──────────────────────────────────────────────────────────────────────
--  NodeRouter (underwrite.py lines 733-777)
-- ──────────────────────────────────────────────────────────────────────

/-- `NodeRouter.determine_node(ud, msg_count)` — the workflow state
machine.  The `msgCount` argument is accepted exactly as in the source
and, as in the source, never read. -/
def determine_node (ud : Snapshot) (msgCount : ℕ) : String :=
  if !truthyO (ud.get "mobile") || !truthyO (ud.get "otpVerified") ||
     !truthyO (ud.get "applicantName") || isNoneO (ud.get "isGSTRegistered") then
    "NODE_ONBOARD"
  else
    -- `is_gst = ud.get("isGSTRegistered")`, read twice below
    if truthyO (ud.get "isGSTRegistered") && !truthyO (ud.get "gstEntityComplete") then
      "NODE_GST_ENTITY"
    else if !truthyO (ud.get "isGSTRegistered") && !truthyO (ud.get "nonGstEntityComplete") then
      "NODE_NONGST_ENTITY"
    else if !truthyO (ud.get "financialsComplete") then
      "NODE_FINANCIALS"
    else if !truthyO (ud.get "offerGenerated") then
      "NODE_OFFER"
    else if truthyO (ud.get "gstConsentUpgrade") && !truthyO (ud.get "allGstnsProcessed") then
      "NODE_GSTN_CONSENT"
    else if truthyO (ud.get "allGstnsProcessed") && !truthyO (ud.get "gstnConsentOfferGenerated") then
      "NODE_GSTN_CONSENT"
    else if truthyO (ud.get "upgradeWithDocs") && !truthyO (ud.get "docsUploaded") then
      "NODE_UPGRADE_DOCS"
    else if truthyO (ud.get "docsUploaded") && !truthyO (ud.get "revisedOfferGenerated") then
      "NODE_REVISED_OFFER"
    else
      "NODE_CLOSURE"

/-- The closed set of node names `determine_node` can return. -/
def allNodes : List String :=
  ["NODE_ONBOARD", "NODE_GST_ENTITY", "NODE_NONGST_ENTITY", "NODE_FINANCIALS",
   "NODE_OFFER", "NODE_GSTN_CONSENT", "NODE_UPGRADE_DOCS", "NODE_REVISED_OFFER",
   "NODE_CLOSURE"]

-- ──────────────────────────────────────────────────────────────────────
--  Numeric model: Python `round` and `float(...)` parsing
-- ──────────────────────────────────────────────────────────────────────

/-- Python `round(q)`: round half to even, to an integer. -/
def rndHalfEven (q : ℚ) : ℤ :=
  let f := Int.floor q
  let frac := q - f
  if frac < 1 / 2 then f
  else if 1 / 2 < frac then f + 1
  else if f % 2 = 0 then f else f + 1

/-- Python `round(q, 2)`: round half to even at two decimal places. -/
def round2 (q : ℚ) : ℚ :=
  (rndHalfEven (q * 100) : ℚ) / 100

/-- Python whitespace stripped by `float(str)`. -/
def isSpaceCh (c : Char) : Bool :=
  c = ' ' || c = '\t' || c = '\n' || c = '\x0d' || c = '\x0b' || c = '\x0c'

/-- Leading decimal digits of a character list, and the rest. -/
def splitDigits (cs : List Char) : List Char × List Char :=
  (cs.takeWhile Char.isDigit, cs.dropWhile Char.isDigit)

/-- Natural-number value of a list of decimal digits. -/
def digitsToNat (cs : List Char) : ℕ :=
  cs.foldl (fun a c => a * 10 + (c.toNat - 48)) 0

/-- Python `float(s)` on a string: optional surrounding whitespace, sign,
decimal mantissa and optional exponent; `none` when parsing raises
`ValueError`.  (Digit-group underscores and the non-finite literals
`inf`/`nan`, which have no rational value, are outside the model.) -/
def pyFloat (s : String) : Option ℚ :=
  let cs := (((s.toList.dropWhile isSpaceCh).reverse).dropWhile isSpaceCh).reverse
  let sgn : ℚ × List Char :=
    match cs with
    | '+' :: t => (1, t)
    | '-' :: t => (-1, t)
    | t => (1, t)
  let ip := splitDigits sgn.2
  let fp : List Char × List Char :=
    match ip.2 with
    | '.' :: t => splitDigits t
    | t => ([], t)
  if ip.1.isEmpty && fp.1.isEmpty then none
  else
    let mant : ℚ := (digitsToNat ip.1 : ℚ) + (digitsToNat fp.1 : ℚ) / 10 ^ fp.1.length
    match fp.2 with
    | [] => some (sgn.1 * mant)
    | e :: t =>
      if e = 'e' || e = 'E' then
        let esgn : ℤ × List Char :=
          match t with
          | '+' :: t2 => (1, t2)
          | '-' :: t2 => (-1, t2)
          | t2 => (1, t2)
        let ed := splitDigits esgn.2
        if ed.1.isEmpty || !ed.2.isEmpty then none
        else some (sgn.1 * mant * (10 : ℚ) ^ (esgn.1 * (digitsToNat ed.1 : ℤ)))
      else none

/-- Python `float(v)` on a stored value: numbers pass through, booleans
are `0`/`1`, strings are parsed, `None` raises (`none`). -/
def pyFloatV : Value → Option ℚ
  | .vNum q => some q
  | .vBool b => some (if b then 1 else 0)
  | .vStr s => pyFloat s
  | .vNone => none

/-- `float(user_data.get("loanAmount", 25))` guarded by `try`: `some q`
when the field is present and parses to `q`, `none` when the default `25`
is used (field absent, or `float` raised). -/
def parseLoanAmountOpt (ud : Snapshot) : Option ℚ :=
  match ud.get "loanAmount" with
  | none => none
  | some v => pyFloatV v

/-- The requested amount used by `calculate_offer` (lines 820-823):
the parsed `loanAmount`, else the default `25`. -/
def requestedAmount (ud : Snapshot) : ℚ :=
  (parseLoanAmountOpt ud).getD 25

/-- `float(d.get(k, dflt))` for `originalApprovedAmount` (line 831):
present values go through Python `float`; an unparseable present value
raises in the source (outside the `try`) and is outside the model. -/
def floatOfD (o : Option Value) (dflt : ℚ) : ℚ :=
  match o with
  | none => dflt
  | some v => (pyFloatV v).getD dflt

-- ──────────────────────────────────────────────────────────────────────
--  Substring search (Python `needle in haystack`)
-- ──────────────────────────────────────────────────────────────────────

/-- `needle` is a leading segment of `hay`. -/
def leadMatch : List Char → List Char → Bool
  | [], _ => true
  | _ :: _, [] => false
  | c :: cs, d :: ds => c = d && leadMatch cs ds

/-- `needle` occurs somewhere in `hay`. -/
def hasSubList (needle : List Char) : List Char → Bool
  | [] => leadMatch needle []
  | c :: t => leadMatch needle (c :: t) || hasSubList needle t

/-- Python `needle in hay` on strings. -/
def hasSubstr (hay needle : String) : Bool :=
  hasSubList needle.toList hay.toList

/-- ASCII lowering of one character. -/
def lowerCh (c : Char) : Char :=
  if 'A' ≤ c ∧ c ≤ 'Z' then Char.ofNat (c.toNat + 32) else c

/-- Python `s.lower()` on the ASCII range (every keyword the source
compares against is ASCII). -/
def pyLower (s : String) : String := ⟨s.data.map lowerCh⟩

-- ──────────────────────────────────────────────────────────────────────
--  Offer calculator (underwrite.py lines 814-906)
-- ──────────────────────────────────────────────────────────────────────

/-- The dictionary returned by `calculate_offer` (pure formatting fields
`approvedAmountFormatted` / `monthlyPayoutFormatted` are omitted), plus
`amortDivisorUsed` recording the denominator `(1+r)^n - 1` of the EMI
formula on the Term-Loan path (`none` on the Revolving path, where no
division by it occurs). -/
structure Offer where
  approvedAmount : ℚ
  loanType : Value
  interestRate : ℚ
  tenureMonths : ℤ
  tenureText : String
  monthlyPayout : ℤ
  amortDivisorUsed : Option ℚ
  isRevolved : Bool
  deriving DecidableEq, Repr

/-- Lines 826-837: the approved amount by mode, together with the
snapshot mutation `user_data["originalApprovedAmount"] = approved` of the
initial mode. -/
def approvedStep (ud : Snapshot) (requested : ℚ) (isRevised isGstnConsent : Bool) :
    ℚ × Snapshot :=
  if isGstnConsent then
    (round2 (requested * 1.15), ud)
  else if isRevised then
    (round2 (floatOfD (ud.get "originalApprovedAmount") (requested * 0.60) * 1.15), ud)
  else
    let a := round2 (requested * 0.60)
    (a, ud.set "originalApprovedAmount" (Value.vNum a))

/-- Lines 839-852: the interest rate from `bureauScore`, with the 50 bps
GSTN-consent discount floored at `10.0`. -/
def rateStep (persona : Snapshot) (isGstnConsent : Bool) : ℚ :=
  let bureau := numOfD (persona.get "bureauScore") 650
  let t : ℚ :=
    if bureau ≥ 750 then 15.0
    else if bureau ≥ 700 then 16.0
    else if bureau ≥ 650 then 17.0
    else 18.0
  if isGstnConsent then max 10.0 (t - 0.5) else t

/-- The purpose keywords that select Revolving Credit (line 863). -/
def revolvingWords : List String := ["inventory", "working capital", "cash management"]

/-- Line 862-863: `any(word in purpose for word in [...])` on the
lowercased `loanPurpose`. -/
def revolvingPurpose (ud : Snapshot) : Bool :=
  revolvingWords.any (fun w => hasSubstr (pyLower (strOfD (ud.get "loanPurpose") "")) w)

/-- Lines 854-866: loan type — preserved from `originalLoanType` on a
revision, else derived from `loanPurpose` and stored.  Returns
`(loan_type, is_revolving, snapshot)`. -/
def loanTypeStep (ud : Snapshot) (isRevised isGstnConsent : Bool) :
    Value × Bool × Snapshot :=
  if (isRevised || isGstnConsent) && truthyO (ud.get "originalLoanType") then
    let lt := (ud.get "originalLoanType").getD Value.vNone
    (lt, lt = Value.vStr "Revolving Credit", ud)
  else
    let rv := revolvingPurpose ud
    let lt := if rv then "Revolving Credit" else "Term Loan"
    (Value.vStr lt, rv, ud.set "originalLoanType" (Value.vStr lt))

/-- The truthy `originalTenureMonths` value of line 876-877 as an integer
month count: a nonzero integer number, or `True` (the integer 1).
`none` when the value is falsy (the guard fails and the tier is
recomputed); the source itself only ever stores the integers 12/24/36
here, and a truthy non-integer or string value would make the source's
`pow` leave rational arithmetic (or raise), so those are outside the
model. -/
def tenureOfVal : Value → Option ℤ
  | .vNum q => if q ≠ 0 ∧ q.den = 1 then some q.num else none
  | .vBool true => some 1
  | _ => none

/-- The `originalTenureMonths` read of the snapshot (line 876-877). -/
def tenureOfSnap (ud : Snapshot) : Option ℤ :=
  (ud.get "originalTenureMonths").bind tenureOfVal

/-- Lines 876-886: tenure on the Term-Loan path — preserved from
`originalTenureMonths` on a revision, else tiered by approved amount and
stored. -/
def tenureStep (ud : Snapshot) (approved : ℚ) (isRevised isGstnConsent : Bool) :
    ℤ × Snapshot :=
  if (isRevised || isGstnConsent) && (tenureOfSnap ud).isSome then
    ((tenureOfSnap ud).getD 0, ud)
  else
    let t : ℤ := if approved ≤ 10 then 12 else if approved ≤ 25 then 24 else 36
    (t, ud.set "originalTenureMonths" (Value.vNum (t : ℚ)))

/-- `calculate_offer(user_data, persona_data, is_revised, is_gstn_consent)`
(lines 814-906).  The Python function mutates `user_data`; the embedding
returns the offer together with the mutated snapshot. -/
def calculate_offer (ud persona : Snapshot) (isRevised isGstnConsent : Bool) :
    Offer × Snapshot :=
  let requested := requestedAmount ud
  let ap := approvedStep ud requested isRevised isGstnConsent
  let approved := ap.1
  let rate := rateStep persona isGstnConsent
  let ltb := loanTypeStep ap.2 isRevised isGstnConsent
  if ltb.2.1 then
    ({ approvedAmount := approved, loanType := ltb.1, interestRate := rate,
       tenureMonths := 12, tenureText := "Annual (renewal based)",
       monthlyPayout := rndHalfEven (approved * 100000 * rate / 100 / 12),
       amortDivisorUsed := none, isRevolved := true }, ltb.2.2)
  else
    let ts := tenureStep ltb.2.2 approved isRevised isGstnConsent
    let P := approved * 100000
    let r := rate / 100 / 12
    let dv := (1 + r) ^ ts.1 - 1
    ({ approvedAmount := approved, loanType := ltb.1, interestRate := rate,
       tenureMonths := ts.1, tenureText := toString ts.1 ++ " months",
       monthlyPayout := rndHalfEven (P * r * (1 + r) ^ ts.1 / dv),
       amortDivisorUsed := some dv, isRevolved := false }, ts.2)

-- ──────────────────────────────────────────────────────────────────────
--  MCA/CIN keyword logic (underwrite.py lines 1009-1030 and 1223-1247)
-- ──────────────────────────────────────────────────────────────────────

/-- The fixed corporate-suffix keyword list of `build_system_prompt`
(line 1013) and of the `chat` validation block (line 1225). -/
def mcaKeywords : List String :=
  ["private limited", "pvt ltd", "pvt. ltd", " limited", " ltd", " ltd.", "llp", "l.l.p"]

/-- `any(keyword in business_name.lower() for keyword in mca_keywords)`. -/
def hasMcaKeywords (businessName : String) : Bool :=
  mcaKeywords.any (fun kw => hasSubstr (pyLower businessName) kw)

/-- The decision of the `mca_check_context` block of `build_system_prompt`
(lines 1009-1030): at the MCA sub-step of `NODE_GST_ENTITY` it instructs
the model to ask for MCA confirmation (`some true`) or to set
`cinSkipped=true` without asking (`some false`); elsewhere no MCA
instruction is emitted (`none`). -/
def mcaCheckAsks (currentNode : String) (ud : Snapshot) : Option Bool :=
  if currentNode = "NODE_GST_ENTITY" && truthyO (ud.get "lineOfBusiness") &&
     !truthyO (ud.get "mcaConfirmation") && !truthyO (ud.get "cinSkipped") then
    some (hasMcaKeywords (strOfD (ud.get "businessName") ""))
  else
    none

-- ──────────────────────────────────────────────────────────────────────
--  Chat handler: snapshot merge and sequence validation
--  (underwrite.py lines 1202-1271)
-- ──────────────────────────────────────────────────────────────────────

/-- Python `d.get("mcaConfirmation") == False`: equality with `False`
also holds for the number `0` (Python booleans are integers). -/
def pyEqFalse : Option Value → Bool
  | some (.vBool false) => true
  | some (.vNum q) => q = 0
  | _ => false

/-- The ordered financial fields of the `NODE_FINANCIALS` validation
(line 1258). -/
def requiredOrder : List String :=
  ["vintage", "revenue", "operatingProfit", "monthlyEMI", "loanAmount", "loanPurpose"]

/-- The suffix of `requiredOrder` after `f` (`required_order[idx+1:]`). -/
def fieldsAfter (f : String) : List String :=
  (requiredOrder.dropWhile (fun g => !(g = f : Bool))).drop 1

/-- The `NODE_FINANCIALS` skip-ahead removal (lines 1258-1271) applied to
the merged snapshot, given the first missing field of the required order
(`none` when every field is truthy, in which case nothing happens): if
that field was extracted, every later required field that was also
extracted is popped; then the loop breaks. -/
def finFilterStep (ud1 ex : Snapshot) : Option String → Snapshot
  | none => ud1
  | some f =>
    if ex.hasKey f then
      (fieldsAfter f).foldl (fun acc g => if ex.hasKey g then acc.remove g else acc) ud1
    else ud1

/-- The `user_data` transformation of the `chat` handler's merge and
sequence-validation block (lines 1202-1271): `user_data.update(dataExtracted)`
followed by the out-of-sequence corrections for `NODE_GST_ENTITY` and
`NODE_FINANCIALS`.  The current node is the one computed at line 1124
from the incoming snapshot (`determine_node` reads none of the fields
written between lines 1124 and 1202).  `ex` is the parsed
`dataExtracted`; `extracted_keys` is computed once from it, before any
correction, exactly as at lines 1209 and 1256. -/
def chatMerge (ud ex : Snapshot) : Snapshot :=
  let node := determine_node ud 0
  let ud1 := ud.update ex
  if node = "NODE_GST_ENTITY" then
    -- skip-detection branch 1 (lines 1211-1214)
    let ud2 :=
      if !truthyO (ud1.get "gstn") && ex.hasKey "businessName" then
        ud1.remove "businessName"
      else ud1
    -- skip-detection branch 2 (lines 1216-1221)
    let ud3 :=
      if !truthyO (ud2.get "businessName") && ex.hasKey "industry" then
        (["industry", "lineOfBusiness", "loanPurpose", "vintage", "revenue"]).foldl
          Snapshot.remove ud2
      else ud2
    -- CIN logic enforcement (lines 1223-1247)
    let hasMca := hasMcaKeywords (strOfD (ud3.get "businessName") "")
    let ud4 :=
      if !hasMca && ex.hasKey "mcaConfirmation" then
        ((ud3.set "cinSkipped" (Value.vBool true)).remove "mcaConfirmation").remove "cin"
      else ud3
    let ud5 :=
      if !hasMca && ex.hasKey "cin" then
        (ud4.set "cinSkipped" (Value.vBool true)).remove "cin"
      else ud4
    -- CIN after denied MCA registration (lines 1250-1253)
    if pyEqFalse (ud5.get "mcaConfirmation") && ex.hasKey "cin" then
      ud5.remove "cin"
    else ud5
  else if node = "NODE_FINANCIALS" then
    -- skip-ahead removal (lines 1255-1271): only the first missing field
    -- of the required order is considered, then the loop breaks
    finFilterStep ud1 ex (requiredOrder.find? (fun f => !truthyO (ud1.get f)))
  else ud1

-- ──────────────────────────────────────────────────────────────────────
--  Snapshot lemmas
-- ──────────────────────────────────────────────────────────────────────

theorem get_filter_ne (m : Snapshot) (k k' : String) (h : k ≠ k') :
    Snapshot.get (m.filter (fun p => !(p.1 = k' : Bool))) k = m.get k := by
  have h' : ¬(k' = k) := fun e => h e.symm
  induction m with
  | nil => rfl
  | cons p t ih =>
    simp only [List.filter_cons]
    by_cases hp : p.1 = k'
    · simp [hp, Snapshot.get, h', ih]
    · by_cases hpk : p.1 = k
      · subst hpk; simp [Snapshot.get, hp]
      · simp [hp, Snapshot.get, hpk, ih]

theorem get_set_self (m : Snapshot) (k : String) (v : Value) :
    (m.set k v).get k = some v := by
  simp [Snapshot.set, Snapshot.get]

theorem get_set_ne (m : Snapshot) (k k' : String) (v : Value) (h : k ≠ k') :
    (m.set k' v).get k = m.get k := by
  have h' : k' ≠ k := fun hk => h hk.symm
  simp [Snapshot.set, Snapshot.get, h', get_filter_ne m k k' h]

theorem get_remove_self (m : Snapshot) (k : String) :
    (m.remove k).get k = none := by
  induction m with
  | nil => rfl
  | cons p t ih =>
    by_cases hp : p.1 = k <;> simp [Snapshot.remove, List.filter_cons, hp, Snapshot.get] at ih ⊢ <;>
      simpa [Snapshot.remove] using ih

theorem get_remove_ne (m : Snapshot) (k k' : String) (h : k ≠ k') :
    (m.remove k').get k = m.get k := by
  simp [Snapshot.remove, get_filter_ne m k k' h]

theorem isSome_get_set (m : Snapshot) (k k' : String) (v : Value)
    (h : (m.get k).isSome) : ((m.set k' v).get k).isSome := by
  by_cases hk : k = k'
  · subst hk; simp [get_set_self]
  · rwa [get_set_ne m k k' v hk]

theorem update_cons (m : Snapshot) (p : String × Value) (t : Snapshot) :
    m.update (p :: t) = (m.set p.1 p.2).update t := rfl

theorem isSome_get_update (m e : Snapshot) (k : String)
    (h : (m.get k).isSome) : ((m.update e).get k).isSome := by
  induction e generalizing m with
  | nil => exact h
  | cons p t ih =>
    rw [update_cons]
    exact ih (m.set p.1 p.2) (isSome_get_set m k p.1 p.2 h)

theorem get_update_notKey (m e : Snapshot) (k : String)
    (h : e.hasKey k = false) : (m.update e).get k = m.get k := by
  induction e generalizing m with
  | nil => rfl
  | cons p t ih =>
    simp only [Snapshot.hasKey, List.any_cons, Bool.or_eq_false_iff,
      decide_eq_false_iff_not] at h
    rw [update_cons, ih (m.set p.1 p.2) (by simpa [Snapshot.hasKey] using h.2),
        get_set_ne m k p.1 p.2 (fun hk => h.1 (hk ▸ rfl))]

-- ──────────────────────────────────────────────────────────────────────
--  Claim C1
-- ──────────────────────────────────────────────────────────────────────

/-- C1: `NodeRouter.determine_node` is a deterministic pure function of
the snapshot alone: for every snapshot the returned step is independent
of the message-count argument (which the body never reads), so two calls
with equal snapshots and arbitrary message counts agree.  Wall-clock time
and call order cannot influence the result because the embedded function
— like the source — reads nothing but its arguments. -/
theorem determine_node_pure_of_snapshot (ud : Snapshot) (m₁ m₂ : ℕ) :
    determine_node ud m₁ = determine_node ud m₂ := rfl

-- ──────────────────────────────────────────────────────────────────────
--  Claim C2
-- ──────────────────────────────────────────────────────────────────────

/-- C2: the state machine is total: on every snapshot — including those
with absent or malformed `isGSTRegistered`, `mobile`, `otpVerified` or
`applicantName` — `determine_node` returns one of the fixed step names,
and whenever `mobile`, `otpVerified` or `applicantName` is missing or
falsy, or the branch flag is absent (`None`), it returns
`"NODE_ONBOARD"`. -/
theorem determine_node_total_and_onboard_default (ud : Snapshot) (m : ℕ) :
    determine_node ud m ∈ allNodes ∧
    ((truthyO (ud.get "mobile") = false ∨ truthyO (ud.get "otpVerified") = false ∨
      truthyO (ud.get "applicantName") = false ∨ isNoneO (ud.get "isGSTRegistered") = true) →
      determine_node ud m = "NODE_ONBOARD") := by
  constructor
  · unfold determine_node allNodes
    split_ifs <;> simp
  · intro h
    unfold determine_node
    have : (!truthyO (ud.get "mobile") || !truthyO (ud.get "otpVerified") ||
        !truthyO (ud.get "applicantName") || isNoneO (ud.get "isGSTRegistered")) = true := by
      rcases h with h | h | h | h <;> simp [h]
    simp [this]

/-- Witness for C2 at a concrete malformed snapshot: `mobile` present but
`isGSTRegistered` absent routes to `NODE_ONBOARD`. -/
theorem determine_node_total_and_onboard_default_witness :
    determine_node [("mobile", Value.vStr "9876543210")] 3 ∈ allNodes ∧
    determine_node [("mobile", Value.vStr "9876543210")] 3 = "NODE_ONBOARD" := by
  refine ⟨(determine_node_total_and_onboard_default _ 3).1, ?_⟩
  exact (determine_node_total_and_onboard_default [("mobile", Value.vStr "9876543210")] 3).2
    (by right; right; right; decide)

-- ──────────────────────────────────────────────────────────────────────
--  Offer projection lemmas
-- ──────────────────────────────────────────────────────────────────────

theorem calc_approvedAmount (ud ps : Snapshot) (r c : Bool) :
    (calculate_offer ud ps r c).1.approvedAmount =
      (approvedStep ud (requestedAmount ud) r c).1 := by
  simp only [calculate_offer]; split <;> rfl

theorem calc_interestRate (ud ps : Snapshot) (r c : Bool) :
    (calculate_offer ud ps r c).1.interestRate = rateStep ps c := by
  simp only [calculate_offer]; split <;> rfl

theorem calc_loanType (ud ps : Snapshot) (r c : Bool) :
    (calculate_offer ud ps r c).1.loanType =
      (loanTypeStep (approvedStep ud (requestedAmount ud) r c).2 r c).1 := by
  simp only [calculate_offer]; split <;> rfl

-- ──────────────────────────────────────────────────────────────────────
--  Claim C3
-- ──────────────────────────────────────────────────────────────────────

/-- C3: for every snapshot whose requested loan amount parses to `q`,
the approved amount is `round(q * 0.60, 2)` in initial mode,
`round(q * 1.15, 2)` (115% of the requested amount) in consent-based
revision mode, and `round(originalApprovedAmount * 1.15, 2)` (115% of the
previously approved amount) in document-based revision mode, with
`originalApprovedAmount` falling back to `q * 0.60` when the field is
absent. -/
theorem offer_amount_by_mode (ud persona : Snapshot) (q : ℚ)
    (h : parseLoanAmountOpt ud = some q) :
    (calculate_offer ud persona false false).1.approvedAmount = round2 (q * 0.60) ∧
    (calculate_offer ud persona false true).1.approvedAmount = round2 (q * 1.15) ∧
    (∀ oa : ℚ, ud.get "originalApprovedAmount" = some (Value.vNum oa) →
      (calculate_offer ud persona true false).1.approvedAmount = round2 (oa * 1.15)) ∧
    (ud.get "originalApprovedAmount" = none →
      (calculate_offer ud persona true false).1.approvedAmount = round2 (q * 0.60 * 1.15)) := by
  have hq : requestedAmount ud = q := by simp [requestedAmount, h]
  refine ⟨?_, ?_, ?_, ?_⟩
  · rw [calc_approvedAmount, hq]; rfl
  · rw [calc_approvedAmount, hq]; rfl
  · intro oa hoa
    rw [calc_approvedAmount, hq]
    simp [approvedStep, floatOfD, hoa, pyFloatV]
  · intro hnone
    rw [calc_approvedAmount, hq]
    simp [approvedStep, floatOfD, hnone, mul_assoc]

/-- Witness for C3 at concrete snapshots: requested 25 with a prior
approved amount of 15 gives 15 / 28.75 / 17.25 by mode, and without the
prior amount the document-based revision falls back to
`25 * 0.60 * 1.15 = 17.25`. -/
theorem offer_amount_by_mode_witness :
    (calculate_offer
        [("loanAmount", Value.vNum 25), ("originalApprovedAmount", Value.vNum 15)]
        [] false false).1.approvedAmount = round2 (25 * 0.60) ∧
    (calculate_offer
        [("loanAmount", Value.vNum 25), ("originalApprovedAmount", Value.vNum 15)]
        [] false true).1.approvedAmount = round2 (25 * 1.15) ∧
    (calculate_offer
        [("loanAmount", Value.vNum 25), ("originalApprovedAmount", Value.vNum 15)]
        [] true false).1.approvedAmount = round2 (15 * 1.15) ∧
    (calculate_offer [("loanAmount", Value.vNum 25)] [] true false).1.approvedAmount =
      round2 (25 * 0.60 * 1.15) := by
  have h₁ := offer_amount_by_mode
    [("loanAmount", Value.vNum 25), ("originalApprovedAmount", Value.vNum 15)] [] 25 (by rfl)
  have h₂ := offer_amount_by_mode [("loanAmount", Value.vNum 25)] [] 25 (by rfl)
  exact ⟨h₁.1, h₁.2.1, h₁.2.2.1 15 (by rfl), h₂.2.2.2 (by rfl)⟩

-- ──────────────────────────────────────────────────────────────────────
--  Claim C5
-- ──────────────────────────────────────────────────────────────────────

/-- The four-tier rate step function as the spec states it (Step 3 of
§4.3): score ≥ 750 → 15.0, ≥ 700 → 16.0, ≥ 650 → 17.0, below → 18.0. -/
def specRateTier (score : ℚ) : ℚ :=
  if score ≥ 750 then 15.0
  else if score ≥ 700 then 16.0
  else if score ≥ 650 then 17.0
  else 18.0

/-- C5: the interest rate of every computed offer is the four-tier step
function of the bureau score; a consent-based revision reduces it by
exactly 50 bps floored at `10.0`; a document-based revision leaves it
equal to the base step function. -/
theorem offer_rate_tiers (ud persona : Snapshot) :
    (calculate_offer ud persona false false).1.interestRate =
      specRateTier (numOfD (persona.get "bureauScore") 650) ∧
    (calculate_offer ud persona false true).1.interestRate =
      max 10.0 (specRateTier (numOfD (persona.get "bureauScore") 650) - 0.5) ∧
    (calculate_offer ud persona true false).1.interestRate =
      specRateTier (numOfD (persona.get "bureauScore") 650) := by
  refine ⟨?_, ?_, ?_⟩ <;> rw [calc_interestRate] <;> rfl

-- ──────────────────────────────────────────────────────────────────────
--  Claim C10
-- ──────────────────────────────────────────────────────────────────────

/-- C10: the offer calculator is total over malformed financial input —
whenever `loanAmount` is absent or does not parse as a number (modelled:
`parseLoanAmountOpt` yields `none`, exactly the cases where the source's
`try` block falls back), `calculate_offer` silently uses the default
requested amount of 25, and an initial offer on such a snapshot approves
`round(25 * 0.60, 2) = 15.0`.  Totality itself is by construction: the
embedded `calculate_offer`, like every Lean function, is total, and the
source's line 820-823 `try/except` is the code point that makes it so. -/
theorem offer_default_on_unparseable_amount (ud persona : Snapshot)
    (h : parseLoanAmountOpt ud = none) :
    requestedAmount ud = 25 ∧
    (calculate_offer ud persona false false).1.approvedAmount = 15 := by
  have hq : requestedAmount ud = 25 := by simp [requestedAmount, h]
  refine ⟨hq, ?_⟩
  rw [calc_approvedAmount, hq]
  show round2 (25 * 0.60) = 15
  norm_num [round2, rndHalfEven]

/-- Witness for C10: a snapshot with a non-numeric `loanAmount` string
defaults to 25 and approves 15. -/
theorem offer_default_on_unparseable_amount_witness :
    requestedAmount [("loanAmount", Value.vStr "a lot")] = 25 ∧
    (calculate_offer [("loanAmount", Value.vStr "a lot")] [] false false).1.approvedAmount
      = 15 :=
  offer_default_on_unparseable_amount [("loanAmount", Value.vStr "a lot")] [] (by rfl)

-- ──────────────────────────────────────────────────────────────────────
--  Stability of the snapshot mutations inside `calculate_offer`
-- ──────────────────────────────────────────────────────────────────────

theorem approvedStep_get_stable (ud : Snapshot) (req : ℚ) (r c : Bool) (k : String)
    (hk : k ≠ "originalApprovedAmount") :
    ((approvedStep ud req r c).2).get k = ud.get k := by
  unfold approvedStep
  split_ifs <;> first | rfl | exact get_set_ne ud k _ _ hk

theorem loanTypeStep_get_stable (ud : Snapshot) (r c : Bool) (k : String)
    (hk : k ≠ "originalLoanType") :
    ((loanTypeStep ud r c).2.2).get k = ud.get k := by
  unfold loanTypeStep
  split_ifs <;> first | rfl | exact get_set_ne ud k _ _ hk

theorem tenureStep_get_stable (ud : Snapshot) (a : ℚ) (r c : Bool) (k : String)
    (hk : k ≠ "originalTenureMonths") :
    ((tenureStep ud a r c).2).get k = ud.get k := by
  unfold tenureStep
  split_ifs <;> first | rfl | exact get_set_ne ud k _ _ hk

theorem revolvingPurpose_approvedStep (ud : Snapshot) (req : ℚ) (r c : Bool) :
    revolvingPurpose (approvedStep ud req r c).2 = revolvingPurpose ud := by
  unfold revolvingPurpose
  rw [approvedStep_get_stable ud req r c "loanPurpose" (by decide)]

-- ──────────────────────────────────────────────────────────────────────
--  Claim C4
-- ──────────────────────────────────────────────────────────────────────

/-- C4: on a first (non-revision) offer, a purpose containing
"inventory", "working capital" or "cash management" (case-insensitive
substring, `revolvingPurpose`) yields Revolving Credit with nominal
tenure 12 months and a monthly payout of simple monthly interest on the
full approved limit (`approvedAmount * (rate/100) / 12`, converted from
lakhs to rupees and rounded to whole rupees as the source does);
otherwise the offer is a Term Loan with tenure 12/24/36 months tiered at
approved amount ≤ 10 / ≤ 25 / above, and monthly payout the amortizing
payment `P * r * (1+r)^n / ((1+r)^n - 1)` with `P` the principal in
rupees, `r` the annual rate over 12, and `n` the tenure in months. -/
theorem offer_structure_and_payout_first (ud persona : Snapshot) (off : Offer)
    (hoff : off = (calculate_offer ud persona false false).1) :
    (revolvingPurpose ud = true →
      off.loanType = Value.vStr "Revolving Credit" ∧ off.isRevolved = true ∧
      off.tenureMonths = 12 ∧
      off.monthlyPayout =
        rndHalfEven (off.approvedAmount * (off.interestRate / 100) / 12 * 100000)) ∧
    (revolvingPurpose ud = false →
      off.loanType = Value.vStr "Term Loan" ∧ off.isRevolved = false ∧
      off.tenureMonths =
        (if off.approvedAmount ≤ 10 then 12 else if off.approvedAmount ≤ 25 then 24 else 36) ∧
      off.monthlyPayout =
        rndHalfEven
          (off.approvedAmount * 100000 * (off.interestRate / 100 / 12) *
              (1 + off.interestRate / 100 / 12) ^ off.tenureMonths /
            ((1 + off.interestRate / 100 / 12) ^ off.tenureMonths - 1))) := by
  subst hoff
  have hrp := revolvingPurpose_approvedStep ud (requestedAmount ud) false false
  constructor
  · intro hrv
    simp only [calculate_offer, loanTypeStep, Bool.or_self, Bool.false_and,
      Bool.false_eq_true, if_false, hrp, hrv, if_true]
    refine ⟨trivial, trivial, trivial, ?_⟩
    congr 1
    ring
  · intro hrv
    simp only [calculate_offer, loanTypeStep, tenureStep, Bool.or_self, Bool.false_and,
      Bool.false_eq_true, if_false, hrp, hrv]
    exact ⟨trivial, trivial, trivial, trivial⟩

/-- Witness for C4 at two concrete snapshots: purpose "Working Capital"
(revolving, tenure 12, simple interest 20000 on 15 lakhs at 16%) and
purpose "expansion" (term loan, tenure 24 on 18 lakhs). -/
theorem offer_structure_and_payout_first_witness :
    ((calculate_offer [("loanAmount", Value.vNum 25), ("loanPurpose", Value.vStr "Working Capital")]
        [("bureauScore", Value.vNum 742)] false false).1.loanType =
      Value.vStr "Revolving Credit" ∧
     (calculate_offer [("loanAmount", Value.vNum 25), ("loanPurpose", Value.vStr "Working Capital")]
        [("bureauScore", Value.vNum 742)] false false).1.tenureMonths = 12) ∧
    ((calculate_offer [("loanAmount", Value.vNum 30), ("loanPurpose", Value.vStr "expansion")]
        [("bureauScore", Value.vNum 742)] false false).1.loanType = Value.vStr "Term Loan" ∧
     (calculate_offer [("loanAmount", Value.vNum 30), ("loanPurpose", Value.vStr "expansion")]
        [("bureauScore", Value.vNum 742)] false false).1.tenureMonths = 24) := by
  have h₁ := offer_structure_and_payout_first
    [("loanAmount", Value.vNum 25), ("loanPurpose", Value.vStr "Working Capital")]
    [("bureauScore", Value.vNum 742)] _ rfl
  have h₂ := offer_structure_and_payout_first
    [("loanAmount", Value.vNum 30), ("loanPurpose", Value.vStr "expansion")]
    [("bureauScore", Value.vNum 742)] _ rfl
  have hr₁ := h₁.1 (by decide)
  have hr₂ := h₂.2 (by decide)
  refine ⟨⟨hr₁.1, hr₁.2.2.1⟩, ⟨hr₂.1, ?_⟩⟩
  rw [hr₂.2.2.1]
  have happ : (calculate_offer [("loanAmount", Value.vNum 30), ("loanPurpose", Value.vStr "expansion")]
      [("bureauScore", Value.vNum 742)] false false).1.approvedAmount = 18 := by
    rw [calc_approvedAmount]
    show round2 ((30 : ℚ) * 0.60) = 18
    norm_num [round2, rndHalfEven]
  rw [happ]
  norm_num

-- ──────────────────────────────────────────────────────────────────────
--  Claim C8
-- ──────────────────────────────────────────────────────────────────────

theorem rateStep_ge_ten (persona : Snapshot) (c : Bool) : 10 ≤ rateStep persona c := by
  have htier : (10 : ℚ) ≤ (if numOfD (persona.get "bureauScore") 650 ≥ 750 then (15.0 : ℚ)
      else if numOfD (persona.get "bureauScore") 650 ≥ 700 then (16.0 : ℚ)
      else if numOfD (persona.get "bureauScore") 650 ≥ 650 then (17.0 : ℚ) else (18.0 : ℚ)) := by
    split_ifs <;> norm_num
  unfold rateStep
  cases c
  · simpa using htier
  · rw [if_pos rfl]
    exact le_trans (by norm_num) (le_max_left (10.0 : ℚ) _)

theorem tenureOfVal_ne_zero (v : Value) (n : ℤ) (h : tenureOfVal v = some n) : n ≠ 0 := by
  cases v with
  | vStr s => exact Option.noConfusion h
  | vNone => exact Option.noConfusion h
  | vBool b =>
    cases b
    · exact Option.noConfusion h
    · simp only [tenureOfVal, Option.some.injEq] at h; omega
  | vNum q =>
    simp only [tenureOfVal] at h
    split_ifs at h with hq
    simp only [Option.some.injEq] at h
    subst h
    exact Rat.num_ne_zero.mpr hq.1

theorem tenureOfSnap_ne_zero (ud : Snapshot) (n : ℤ) (h : tenureOfSnap ud = some n) :
    n ≠ 0 := by
  unfold tenureOfSnap at h
  rcases hg : ud.get "originalTenureMonths" with _ | v <;> rw [hg] at h
  · exact Option.noConfusion h
  · rw [Option.some_bind] at h
    exact tenureOfVal_ne_zero v n h

theorem tenureStep_ne_zero (ud : Snapshot) (a : ℚ) (r c : Bool) :
    (tenureStep ud a r c).1 ≠ 0 := by
  unfold tenureStep
  split_ifs with h
  · rw [Bool.and_eq_true] at h
    rcases hs : tenureOfSnap ud with _ | n
    · rw [hs] at h; simp at h
    · simp only [hs, Option.getD_some]
      exact tenureOfSnap_ne_zero ud n hs
  all_goals simp

theorem amort_divisor_ne_zero (x : ℚ) (hx : 1 < x) (n : ℤ) (hn : n ≠ 0) :
    x ^ n - 1 ≠ 0 := by
  intro h
  have hx0 : 0 < x := lt_trans one_pos hx
  have h1 : x ^ n = x ^ (0 : ℤ) := by rw [zpow_zero]; linarith [sub_eq_zero.mp h]
  exact hn (zpow_right_injective₀ hx0 (ne_of_gt hx) h1)

/-- C8: on the Term-Loan (installment) path the amortization divisor
`(1+r)^n - 1` is non-zero whenever the payout is computed: for every
snapshot, persona and mode, if `calculate_offer` divides by a recorded
divisor `d` (field `amortDivisorUsed`), then `d ≠ 0`.  The guard is
established by the rate tiers themselves: the periodic rate
`r = rate/100/12` is always positive (the rate is floored at `10.0`), and
the tenure is never zero, so the degenerate zero-rate division never
arises in the source. -/
theorem installment_divisor_nonzero (ud persona : Snapshot) (r c : Bool) (d : ℚ)
    (h : (calculate_offer ud persona r c).1.amortDivisorUsed = some d) : d ≠ 0 := by
  have hrate : 10 ≤ rateStep persona c := rateStep_ge_ten persona c
  revert h
  simp only [calculate_offer]
  split
  · intro h; exact absurd h (by simp)
  · intro h
    simp only [Option.some.injEq] at h
    subst h
    apply amort_divisor_ne_zero
    · have : 0 < rateStep persona c / 100 / 12 := by positivity
      linarith
    · exact tenureStep_ne_zero _ _ r c

/-- Witness for C8: the concrete Term-Loan offer (requested 30, purpose
"expansion", score 742) records a divisor, and it is non-zero. -/
theorem installment_divisor_nonzero_witness :
    ((calculate_offer [("loanAmount", Value.vNum 30), ("loanPurpose", Value.vStr "expansion")]
        [("bureauScore", Value.vNum 742)] false false).1.amortDivisorUsed).isSome = true ∧
    ((calculate_offer [("loanAmount", Value.vNum 30), ("loanPurpose", Value.vStr "expansion")]
        [("bureauScore", Value.vNum 742)] false false).1.amortDivisorUsed).getD 0 ≠ 0 := by
  have hsome : ((calculate_offer
      [("loanAmount", Value.vNum 30), ("loanPurpose", Value.vStr "expansion")]
      [("bureauScore", Value.vNum 742)] false false).1.amortDivisorUsed).isSome = true := rfl
  refine ⟨hsome, ?_⟩
  rcases ho : (calculate_offer
      [("loanAmount", Value.vNum 30), ("loanPurpose", Value.vStr "expansion")]
      [("bureauScore", Value.vNum 742)] false false).1.amortDivisorUsed with _ | d
  · rw [ho] at hsome; cases hsome
  · simpa using installment_divisor_nonzero
      [("loanAmount", Value.vNum 30), ("loanPurpose", Value.vStr "expansion")]
      [("bureauScore", Value.vNum 742)] false false d ho

-- ──────────────────────────────────────────────────────────────────────
--  Claim C6
-- ──────────────────────────────────────────────────────────────────────

/-- The offers produced by a sequence of further `calculate_offer` calls
(each `(is_revised, is_gstn_consent)`), threading the mutated snapshot
exactly as the source threads `user_data`. -/
def offersAfterRevisions (ud persona : Snapshot) : List (Bool × Bool) → List Offer
  | [] => []
  | f :: fs =>
    (calculate_offer ud persona f.1 f.2).1 ::
      offersAfterRevisions (calculate_offer ud persona f.1 f.2).2 persona fs

/-- Shape of a first (non-revision) offer, by purpose class. -/
theorem calculate_offer_first_shape (ud persona : Snapshot) :
    (revolvingPurpose ud = true →
      calculate_offer ud persona false false =
        ({ approvedAmount := (approvedStep ud (requestedAmount ud) false false).1,
           loanType := Value.vStr "Revolving Credit",
           interestRate := rateStep persona false,
           tenureMonths := 12, tenureText := "Annual (renewal based)",
           monthlyPayout := rndHalfEven ((approvedStep ud (requestedAmount ud) false false).1 *
             100000 * rateStep persona false / 100 / 12),
           amortDivisorUsed := none, isRevolved := true },
         ((approvedStep ud (requestedAmount ud) false false).2).set "originalLoanType"
           (Value.vStr "Revolving Credit"))) ∧
    (revolvingPurpose ud = false →
      calculate_offer ud persona false false =
        ({ approvedAmount := (approvedStep ud (requestedAmount ud) false false).1,
           loanType := Value.vStr "Term Loan",
           interestRate := rateStep persona false,
           tenureMonths := (if (approvedStep ud (requestedAmount ud) false false).1 ≤ 10 then 12
             else if (approvedStep ud (requestedAmount ud) false false).1 ≤ 25 then 24 else 36),
           tenureText := toString (if (approvedStep ud (requestedAmount ud) false false).1 ≤ 10 then (12 : ℤ)
             else if (approvedStep ud (requestedAmount ud) false false).1 ≤ 25 then 24 else 36) ++ " months",
           monthlyPayout := rndHalfEven ((approvedStep ud (requestedAmount ud) false false).1 * 100000 *
             (rateStep persona false / 100 / 12) *
             (1 + rateStep persona false / 100 / 12) ^
               (if (approvedStep ud (requestedAmount ud) false false).1 ≤ 10 then (12 : ℤ)
                else if (approvedStep ud (requestedAmount ud) false false).1 ≤ 25 then 24 else 36) /
             ((1 + rateStep persona false / 100 / 12) ^
               (if (approvedStep ud (requestedAmount ud) false false).1 ≤ 10 then (12 : ℤ)
                else if (approvedStep ud (requestedAmount ud) false false).1 ≤ 25 then 24 else 36) - 1)),
           amortDivisorUsed := some ((1 + rateStep persona false / 100 / 12) ^
               (if (approvedStep ud (requestedAmount ud) false false).1 ≤ 10 then (12 : ℤ)
                else if (approvedStep ud (requestedAmount ud) false false).1 ≤ 25 then 24 else 36) - 1),
           isRevolved := false },
         (((approvedStep ud (requestedAmount ud) false false).2).set "originalLoanType"
             (Value.vStr "Term Loan")).set "originalTenureMonths"
           (Value.vNum ((if (approvedStep ud (requestedAmount ud) false false).1 ≤ 10 then (12 : ℤ)
             else if (approvedStep ud (requestedAmount ud) false false).1 ≤ 25 then 24 else 36 : ℤ) : ℚ)))) := by
  have hrp := revolvingPurpose_approvedStep ud (requestedAmount ud) false false
  constructor <;> intro hrv <;>
    simp only [calculate_offer, loanTypeStep, tenureStep, tenureOfSnap, Bool.or_self,
      Bool.false_and, Bool.false_eq_true, if_false, hrp, hrv, if_true]

/-- One revision step preserves the recorded structure and tenure. -/
theorem revision_preserves (s persona : Snapshot) (r c : Bool)
    (hrc : r = true ∨ c = true)
    (lt : String) (hlt : lt = "Revolving Credit" ∨ lt = "Term Loan")
    (hL : s.get "originalLoanType" = some (Value.vStr lt))
    (t : ℤ) (ht : t = 12 ∨ t = 24 ∨ t = 36)
    (hT : lt = "Term Loan" → s.get "originalTenureMonths" = some (Value.vNum (t : ℚ))) :
    (calculate_offer s persona r c).1.loanType = Value.vStr lt ∧
    (calculate_offer s persona r c).1.tenureMonths =
      (if lt = "Revolving Credit" then 12 else t) ∧
    (calculate_offer s persona r c).2.get "originalLoanType" = some (Value.vStr lt) ∧
    (lt = "Term Loan" →
      (calculate_offer s persona r c).2.get "originalTenureMonths" =
        some (Value.vNum (t : ℚ))) := by
  have hrc' : (r || c) = true := by rcases hrc with h | h <;> simp [h]
  have hap2 : (approvedStep s (requestedAmount s) r c).2 = s := by
    unfold approvedStep
    rcases hrc with h | h <;> subst h <;> split_ifs <;> first | rfl | simp_all
  have htruthy : truthyO (s.get "originalLoanType") = true := by
    rw [hL]
    rcases hlt with h | h <;> subst h <;> rfl
  have hguard : ((r || c) && truthyO (s.get "originalLoanType")) = true := by
    rw [hrc', htruthy]; rfl
  rcases hlt with hlt' | hlt'
  · -- Revolving Credit: tenure is the fixed 12, snapshot untouched
    subst hlt'
    have hltb : loanTypeStep s r c = (Value.vStr "Revolving Credit", true, s) := by
      unfold loanTypeStep
      rw [if_pos hguard, hL]
      rfl
    simp only [calculate_offer, hap2, hltb, if_true]
    refine ⟨trivial, by simp, ?_, ?_⟩
    · exact hL
    · intro h; exact absurd h (by decide)
  · -- Term Loan: tenure read back from the recorded originalTenureMonths
    subst hlt'
    have hltb : loanTypeStep s r c = (Value.vStr "Term Loan", false, s) := by
      unfold loanTypeStep
      rw [if_pos hguard, hL]
      rfl
    have htn : tenureOfSnap s = some t := by
      unfold tenureOfSnap
      rw [hT rfl, Option.some_bind]
      simp only [tenureOfVal]
      rw [if_pos ⟨by exact_mod_cast (by omega : t ≠ 0), Rat.den_intCast t⟩]
      simp
    have hts : tenureStep s (approvedStep s (requestedAmount s) r c).1 r c = (t, s) := by
      unfold tenureStep
      rw [if_pos (by rw [hrc', htn]; rfl)]
      rw [htn]
      rfl
    simp only [calculate_offer, hap2, hltb, Bool.false_eq_true, if_false, hts]
    refine ⟨trivial, by simp, hL, fun _ => hT rfl⟩

/-- Every offer in a revision chain keeps the recorded structure/tenure. -/
theorem offers_chain_stable (persona : Snapshot) (lt : String)
    (hlt : lt = "Revolving Credit" ∨ lt = "Term Loan")
    (t : ℤ) (ht : t = 12 ∨ t = 24 ∨ t = 36) :
    ∀ (fs : List (Bool × Bool)) (s : Snapshot),
      (∀ p ∈ fs, p.1 = true ∨ p.2 = true) →
      s.get "originalLoanType" = some (Value.vStr lt) →
      (lt = "Term Loan" → s.get "originalTenureMonths" = some (Value.vNum (t : ℚ))) →
      ∀ off ∈ offersAfterRevisions s persona fs,
        off.loanType = Value.vStr lt ∧
        off.tenureMonths = (if lt = "Revolving Credit" then 12 else t) := by
  intro fs
  induction fs with
  | nil =>
    intro s _ _ _ off hoff
    simp [offersAfterRevisions] at hoff
  | cons f rest ih =>
    intro s hall hL hT off hoff
    have hstep := revision_preserves s persona f.1 f.2 (hall f (by simp)) lt hlt hL t ht hT
    simp only [offersAfterRevisions, List.mem_cons] at hoff
    rcases hoff with rfl | hoff
    · exact ⟨hstep.1, hstep.2.1⟩
    · exact ih (calculate_offer s persona f.1 f.2).2
        (fun p hp => hall p (by simp [hp])) hstep.2.2.1 hstep.2.2.2 off hoff

/-- Counterexample to C6 as stated: on a first offer with purpose
"inventory purchase" the structure is Revolving with tenure 12, but
`originalTenureMonths` is NOT persisted into the snapshot (only the
Term-Loan path stores it). -/
theorem tenure_not_persisted_counterexample :
    (calculate_offer
        [("loanAmount", Value.vNum 30), ("loanPurpose", Value.vStr "inventory purchase")]
        [("bureauScore", Value.vNum 742)] false false).1.tenureMonths = 12 ∧
    (calculate_offer
        [("loanAmount", Value.vNum 30), ("loanPurpose", Value.vStr "inventory purchase")]
        [("bureauScore", Value.vNum 742)] false false).2.get "originalTenureMonths" = none :=
  ⟨rfl, rfl⟩

/-- C6 (amended): the first offer always persists `originalLoanType`;
`originalTenureMonths` is persisted only on the Term-Loan path (the
Revolving path stores no tenure).  Nevertheless every subsequent revision
(document-based or consent-based, in any sequence) returns the same
`loanType` and the same `tenureMonths` as the first offer — the Revolving
tenure being the fixed 12 — reading them back from the persisted fields
rather than re-deriving them from purpose text or amount. -/
theorem structure_stable_across_revisions (ud persona : Snapshot) :
    ((calculate_offer ud persona false false).2.get "originalLoanType" =
      some (calculate_offer ud persona false false).1.loanType) ∧
    ((calculate_offer ud persona false false).1.isRevolved = false →
      (calculate_offer ud persona false false).2.get "originalTenureMonths" =
        some (Value.vNum ((calculate_offer ud persona false false).1.tenureMonths : ℚ))) ∧
    (∀ fs : List (Bool × Bool), (∀ p ∈ fs, p.1 = true ∨ p.2 = true) →
      ∀ off ∈ offersAfterRevisions (calculate_offer ud persona false false).2 persona fs,
        off.loanType = (calculate_offer ud persona false false).1.loanType ∧
        off.tenureMonths = (calculate_offer ud persona false false).1.tenureMonths) := by
  rcases hrv : revolvingPurpose ud with _ | _
  · -- Term Loan first offer
    have hshape := (calculate_offer_first_shape ud persona).2 hrv
    rw [hshape]
    have ht : (if (approvedStep ud (requestedAmount ud) false false).1 ≤ 10 then (12 : ℤ)
        else if (approvedStep ud (requestedAmount ud) false false).1 ≤ 25 then 24 else 36) = 12 ∨
        (if (approvedStep ud (requestedAmount ud) false false).1 ≤ 10 then (12 : ℤ)
        else if (approvedStep ud (requestedAmount ud) false false).1 ≤ 25 then 24 else 36) = 24 ∨
        (if (approvedStep ud (requestedAmount ud) false false).1 ≤ 10 then (12 : ℤ)
        else if (approvedStep ud (requestedAmount ud) false false).1 ≤ 25 then 24 else 36) = 36 := by
      split_ifs <;> simp
    refine ⟨?_, ?_, ?_⟩
    · rw [get_set_ne _ _ _ _ (by decide), get_set_self]
    · intro _
      rw [get_set_self]
    · intro fs hall off hoff
      have := offers_chain_stable persona "Term Loan" (Or.inr rfl) _ ht fs _ hall
        (by rw [get_set_ne _ _ _ _ (by decide), get_set_self])
        (fun _ => by rw [get_set_self]) off hoff
      simpa using this
  · -- Revolving first offer
    have hshape := (calculate_offer_first_shape ud persona).1 hrv
    rw [hshape]
    refine ⟨?_, ?_, ?_⟩
    · rw [get_set_self]
    · intro h; exact absurd h (by simp)
    · intro fs hall off hoff
      have := offers_chain_stable persona "Revolving Credit" (Or.inl rfl) 12 (Or.inl rfl) fs _
        hall (by rw [get_set_self]) (fun h => absurd h (by decide)) off hoff
      simpa using this

/-- Witness for C6 at a concrete application: first offer for requested
30 with purpose "expansion" (Term Loan, tenure 24), followed by a
document-based and then a consent-based revision, keeps
loanType = Term Loan and tenure = 24 in every revised offer. -/
theorem structure_stable_across_revisions_witness :
    ∀ off ∈ offersAfterRevisions
        (calculate_offer
          [("loanAmount", Value.vNum 30), ("loanPurpose", Value.vStr "expansion")]
          [("bureauScore", Value.vNum 742)] false false).2
        [("bureauScore", Value.vNum 742)] [(true, false), (false, true)],
      off.loanType = (calculate_offer
          [("loanAmount", Value.vNum 30), ("loanPurpose", Value.vStr "expansion")]
          [("bureauScore", Value.vNum 742)] false false).1.loanType ∧
      off.tenureMonths = (calculate_offer
          [("loanAmount", Value.vNum 30), ("loanPurpose", Value.vStr "expansion")]
          [("bureauScore", Value.vNum 742)] false false).1.tenureMonths :=
  (structure_stable_across_revisions
      [("loanAmount", Value.vNum 30), ("loanPurpose", Value.vStr "expansion")]
      [("bureauScore", Value.vNum 742)]).2.2
    [(true, false), (false, true)] (by decide)

-- ──────────────────────────────────────────────────────────────────────
--  Claim C7
-- ──────────────────────────────────────────────────────────────────────

/-- The `NODE_FINANCIALS` part of `noRemovalTriggered`: the skip-ahead
removal fires only when the first missing required field and some later
required field were both extracted. -/
def finRemovalFree (ex : Snapshot) : Option String → Bool
  | none => true
  | some f => !(ex.hasKey f && (fieldsAfter f).any (fun g => ex.hasKey g))

/-- No key-removing branch of the `chat` validation block fires for this
input: the negation of the guard of each of the five removal branches of
`NODE_GST_ENTITY` (lines 1211-1253) and of the skip-ahead removal of
`NODE_FINANCIALS` (lines 1258-1271), each stated over the merged
snapshot, exactly as the source tests them. -/
def noRemovalTriggered (ud ex : Snapshot) : Bool :=
  let node := determine_node ud 0
  let ud1 := ud.update ex
  if node = "NODE_GST_ENTITY" then
    !(!truthyO (ud1.get "gstn") && ex.hasKey "businessName") &&
    (!(!truthyO (ud1.get "businessName") && ex.hasKey "industry") &&
    (!(!hasMcaKeywords (strOfD (ud1.get "businessName") "") && ex.hasKey "mcaConfirmation") &&
    (!(!hasMcaKeywords (strOfD (ud1.get "businessName") "") && ex.hasKey "cin") &&
    !(pyEqFalse (ud1.get "mcaConfirmation") && ex.hasKey "cin"))))
  else if node = "NODE_FINANCIALS" then
    finRemovalFree ex (requiredOrder.find? (fun f => !truthyO (ud1.get f)))
  else true

theorem foldl_remove_of_none (ex : Snapshot) (l : List String) (acc : Snapshot)
    (h : ∀ g ∈ l, ex.hasKey g = false) :
    l.foldl (fun acc g => if ex.hasKey g then acc.remove g else acc) acc = acc := by
  induction l generalizing acc with
  | nil => rfl
  | cons g t ih =>
    simp only [List.foldl_cons]
    rw [if_neg (by simp [h g (by simp)])]
    exact ih acc (fun g2 hg2 => h g2 (by simp [hg2]))

theorem chatMerge_eq_update (ud ex : Snapshot) (h : noRemovalTriggered ud ex = true) :
    chatMerge ud ex = ud.update ex := by
  unfold noRemovalTriggered at h
  unfold chatMerge
  by_cases hn1 : determine_node ud 0 = "NODE_GST_ENTITY"
  · rw [if_pos hn1] at h ⊢
    simp only [Bool.and_eq_true, Bool.not_eq_true'] at h
    obtain ⟨h1, h2, h3, h4, h5⟩ := h
    simp only [h1, Bool.false_eq_true, if_false, h2, h3, h4, h5]
  · rw [if_neg hn1] at h ⊢
    by_cases hn2 : determine_node ud 0 = "NODE_FINANCIALS"
    · rw [if_pos hn2] at h ⊢
      revert h
      rcases requiredOrder.find? (fun f => !truthyO ((ud.update ex).get f)) with _ | f <;>
        intro h
      · simp only [finFilterStep]
      · simp only [finRemovalFree, Bool.not_eq_true', Bool.and_eq_false_iff] at h
        simp only [finFilterStep]
        rcases h with h | h
        · exact if_neg (by simp [h])
        · rw [List.any_eq_false] at h
          split_ifs
          · exact foldl_remove_of_none ex (fieldsAfter f) (ud.update ex)
              (fun g hg => by simpa using h g hg)
          · rfl
    · rw [if_neg hn2]

/-- Counterexample to C7 as stated: at `NODE_GST_ENTITY` with `gstn`
still missing, an extraction containing `businessName` makes the `chat`
validation block remove the `businessName` key that was present in the
input snapshot — the resulting snapshot is not a superset of the input. -/
theorem chat_removes_input_key_counterexample :
    (Snapshot.get
        [("mobile", Value.vStr "9876543210"), ("otpVerified", Value.vBool true),
         ("applicantName", Value.vStr "Asha"), ("isGSTRegistered", Value.vBool true),
         ("businessName", Value.vStr "ABC Traders")] "businessName").isSome = true ∧
    (chatMerge
        [("mobile", Value.vStr "9876543210"), ("otpVerified", Value.vBool true),
         ("applicantName", Value.vStr "Asha"), ("isGSTRegistered", Value.vBool true),
         ("businessName", Value.vStr "ABC Traders")]
        [("businessName", Value.vStr "ABC Traders")]).get "businessName" = none :=
  ⟨rfl, rfl⟩

/-- C7 (amended): the merge step `user_data.update(dataExtracted)` only
adds or overwrites keys, so whenever the extracted data triggers none of
the out-of-sequence removal branches of the validation block (predicate
`noRemovalTriggered`), the resulting snapshot is a superset of the input
snapshot — no key present in the input is removed.  When a removal branch
does fire (only possible at `NODE_GST_ENTITY` and `NODE_FINANCIALS`), the
orchestrator may pop keys, including keys present in the input snapshot
(see the counterexample). -/
theorem chat_superset_when_no_removal (ud ex : Snapshot)
    (h : noRemovalTriggered ud ex = true) (k : String)
    (hk : (ud.get k).isSome = true) :
    ((chatMerge ud ex).get k).isSome = true := by
  rw [chatMerge_eq_update ud ex h]
  exact isSome_get_update ud ex k hk

/-- Witness for C7: an in-sequence extraction (`otpVerified` during
onboarding) keeps the input key `mobile` present. -/
theorem chat_superset_when_no_removal_witness :
    ((chatMerge [("mobile", Value.vStr "9876543210")]
        [("otpVerified", Value.vBool true)]).get "mobile").isSome = true :=
  chat_superset_when_no_removal [("mobile", Value.vStr "9876543210")]
    [("otpVerified", Value.vBool true)] (by decide) "mobile" (by decide)

-- ──────────────────────────────────────────────────────────────────────
--  Claim C9
-- ──────────────────────────────────────────────────────────────────────

/-- C9: conditional-skip correctness of the CIN sub-step.
(1) The keyword test: "Knight Fintech" and "ABC Traders" contain no
corporate-suffix keyword, "Knight Fintech Pvt Ltd" and "ABC Private
Limited" do.  (2) At the MCA stage the prompt builder instructs skipping
(`some false`) for the former and asking (`some true`, the sub-step is
entered) for the latter.  (3) Enforcement in the `chat` validation block:
at `NODE_GST_ENTITY`, when the legal name has no keyword and the input
snapshot has no `mcaConfirmation`/`cin` yet, any extraction containing
`mcaConfirmation` or `cin` results in `cinSkipped = true` with neither a
`mcaConfirmation` nor a `cin` field retained. -/
theorem cin_substep_conditional_skip :
    (hasMcaKeywords "Knight Fintech" = false ∧ hasMcaKeywords "ABC Traders" = false ∧
     hasMcaKeywords "Knight Fintech Pvt Ltd" = true ∧
     hasMcaKeywords "ABC Private Limited" = true) ∧
    (mcaCheckAsks "NODE_GST_ENTITY"
        [("lineOfBusiness", Value.vStr "Retail"), ("businessName", Value.vStr "Knight Fintech")] =
        some false ∧
     mcaCheckAsks "NODE_GST_ENTITY"
        [("lineOfBusiness", Value.vStr "Retail"), ("businessName", Value.vStr "ABC Traders")] =
        some false ∧
     mcaCheckAsks "NODE_GST_ENTITY"
        [("lineOfBusiness", Value.vStr "Retail"),
         ("businessName", Value.vStr "Knight Fintech Pvt Ltd")] = some true ∧
     mcaCheckAsks "NODE_GST_ENTITY"
        [("lineOfBusiness", Value.vStr "Retail"),
         ("businessName", Value.vStr "ABC Private Limited")] = some true) ∧
    (∀ (ud ex : Snapshot) (name : String),
      determine_node ud 0 = "NODE_GST_ENTITY" →
      ud.get "businessName" = some (Value.vStr name) → name ≠ "" →
      hasMcaKeywords name = false →
      ex.hasKey "businessName" = false →
      ud.get "mcaConfirmation" = none → ud.get "cin" = none →
      (ex.hasKey "mcaConfirmation" = true ∨ ex.hasKey "cin" = true) →
      (chatMerge ud ex).get "cinSkipped" = some (Value.vBool true) ∧
      (chatMerge ud ex).get "mcaConfirmation" = none ∧
      (chatMerge ud ex).get "cin" = none) := by
  refine ⟨by decide, by decide, ?_⟩
  intro ud ex name hnode hbn hbne hnm hbnex hmcaIn hcinIn hex
  have hud1bn : (ud.update ex).get "businessName" = some (Value.vStr name) := by
    rw [get_update_notKey ud ex _ hbnex, hbn]
  have hg1 : (!truthyO ((ud.update ex).get "gstn") && ex.hasKey "businessName") = false := by
    simp [hbnex]
  have hg2 : (!truthyO ((ud.update ex).get "businessName") && ex.hasKey "industry") = false := by
    simp [hud1bn, truthyO, Value.truthy, hbne]
  have hmca : hasMcaKeywords (strOfD ((ud.update ex).get "businessName") "") = false := by
    rw [hud1bn]; exact hnm
  rcases hm : ex.hasKey "mcaConfirmation" with _ | _ <;>
    rcases hc : ex.hasKey "cin" with _ | _
  · -- neither extracted: contradicts the trigger hypothesis
    rcases hex with h | h
    · rw [hm] at h; cases h
    · rw [hc] at h; cases h
  · -- only cin extracted
    have hud1mca : (ud.update ex).get "mcaConfirmation" = none := by
      rw [get_update_notKey ud ex _ hm, hmcaIn]
    have hg5 : pyEqFalse ((((ud.update ex).set "cinSkipped" (Value.vBool true)).remove
        "cin").get "mcaConfirmation") = false := by
      rw [get_remove_ne _ _ _ (by decide), get_set_ne _ _ _ _ (by decide), hud1mca]
      rfl
    have hres : chatMerge ud ex =
        ((ud.update ex).set "cinSkipped" (Value.vBool true)).remove "cin" := by
      unfold chatMerge
      rw [if_pos hnode]
      simp only [hg1, Bool.false_eq_true, if_false, hg2, hmca, Bool.not_false, Bool.true_and,
        hm, hc, if_true, Bool.and_false, Bool.and_true, hg5, Bool.false_and]
    rw [hres]
    refine ⟨?_, ?_, ?_⟩
    · rw [get_remove_ne _ _ _ (by decide), get_set_self]
    · rw [get_remove_ne _ _ _ (by decide), get_set_ne _ _ _ _ (by decide), hud1mca]
    · exact get_remove_self _ _
  · -- only mcaConfirmation extracted
    have hres : chatMerge ud ex =
        (((ud.update ex).set "cinSkipped" (Value.vBool true)).remove
          "mcaConfirmation").remove "cin" := by
      unfold chatMerge
      rw [if_pos hnode]
      simp only [hg1, Bool.false_eq_true, if_false, hg2, hmca, Bool.not_false, Bool.true_and,
        hm, hc, if_true, Bool.and_false, Bool.and_true]
    rw [hres]
    refine ⟨?_, ?_, ?_⟩
    · rw [get_remove_ne _ _ _ (by decide), get_remove_ne _ _ _ (by decide), get_set_self]
    · rw [get_remove_ne _ _ _ (by decide), get_remove_self]
    · exact get_remove_self _ _
  · -- both extracted
    have hg5 : pyEqFalse ((((((((ud.update ex).set "cinSkipped"
        (Value.vBool true)).remove "mcaConfirmation").remove "cin").set "cinSkipped"
        (Value.vBool true)).remove "cin")).get "mcaConfirmation") = false := by
      rw [get_remove_ne _ _ _ (by decide), get_set_ne _ _ _ _ (by decide),
        get_remove_ne _ _ _ (by decide), get_remove_self]
      rfl
    have hres : chatMerge ud ex =
        (((((ud.update ex).set "cinSkipped" (Value.vBool true)).remove
            "mcaConfirmation").remove "cin").set "cinSkipped" (Value.vBool true)).remove
          "cin" := by
      unfold chatMerge
      rw [if_pos hnode]
      simp only [hg1, Bool.false_eq_true, if_false, hg2, hmca, Bool.not_false, Bool.true_and,
        hm, hc, if_true, Bool.and_false, Bool.and_true, hg5, Bool.false_and]
    rw [hres]
    refine ⟨?_, ?_, ?_⟩
    · rw [get_remove_ne _ _ _ (by decide), get_set_self]
    · rw [get_remove_ne _ _ _ (by decide), get_set_ne _ _ _ _ (by decide),
        get_remove_ne _ _ _ (by decide), get_remove_self]
    · exact get_remove_self _ _

/-- Witness for C9's enforcement part at a concrete application: legal
name "Knight Fintech" (no keyword), extraction `{mcaConfirmation: true}`
forces `cinSkipped = true` with no `mcaConfirmation` or `cin` kept. -/
theorem cin_substep_conditional_skip_witness :
    (chatMerge
        [("mobile", Value.vStr "9876543210"), ("otpVerified", Value.vBool true),
         ("applicantName", Value.vStr "Asha"), ("isGSTRegistered", Value.vBool true),
         ("gstn", Value.vStr "27ABCDE1234F1Z5"), ("businessName", Value.vStr "Knight Fintech"),
         ("udyamSkipped", Value.vBool true), ("industry", Value.vStr "Manufacturing"),
         ("lineOfBusiness", Value.vStr "Textiles")]
        [("mcaConfirmation", Value.vBool true)]).get "cinSkipped" =
      some (Value.vBool true) ∧
    (chatMerge
        [("mobile", Value.vStr "9876543210"), ("otpVerified", Value.vBool true),
         ("applicantName", Value.vStr "Asha"), ("isGSTRegistered", Value.vBool true),
         ("gstn", Value.vStr "27ABCDE1234F1Z5"), ("businessName", Value.vStr "Knight Fintech"),
         ("udyamSkipped", Value.vBool true), ("industry", Value.vStr "Manufacturing"),
         ("lineOfBusiness", Value.vStr "Textiles")]
        [("mcaConfirmation", Value.vBool true)]).get "mcaConfirmation" = none ∧
    (chatMerge
        [("mobile", Value.vStr "9876543210"), ("otpVerified", Value.vBool true),
         ("applicantName", Value.vStr "Asha"), ("isGSTRegistered", Value.vBool true),
         ("gstn", Value.vStr "27ABCDE1234F1Z5"), ("businessName", Value.vStr "Knight Fintech"),
         ("udyamSkipped", Value.vBool true), ("industry", Value.vStr "Manufacturing"),
         ("lineOfBusiness", Value.vStr "Textiles")]
        [("mcaConfirmation", Value.vBool true)]).get "cin" = none :=
  cin_substep_conditional_skip.2.2
    [("mobile", Value.vStr "9876543210"), ("otpVerified", Value.vBool true),
     ("applicantName", Value.vStr "Asha"), ("isGSTRegistered", Value.vBool true),
     ("gstn", Value.vStr "27ABCDE1234F1Z5"), ("businessName", Value.vStr "Knight Fintech"),
     ("udyamSkipped", Value.vBool true), ("industry", Value.vStr "Manufacturing"),
     ("lineOfBusiness", Value.vStr "Textiles")]
    [("mcaConfirmation", Value.vBool true)] "Knight Fintech"
    (by decide) (by decide) (by decide) (by decide) (by decide) (by decide) (by decide)
    (Or.inl (by decide))

end Underwrite
